import Mathlib

/-!
Shallow embedding of the palm-payment-api HTTP handlers.

The repository holds two revisions of the same Express/Prisma server:
`src/index.js` (called v1 below) and `src/unnamed/part_000` (v2).
Handlers are modelled as pure functions over explicit store state:
Prisma tables become lists of records, the in-memory enrollment-token
map becomes an association list, `Date.now()` becomes an explicit `now`
parameter, and JS numbers become rationals.  A handler that responds
with an HTTP error status is modelled with `Except ApiError`.
-/

/-- HTTP error responses used by the handlers (status code plus message). -/
inductive ApiError where
  | badRequest (msg : String)
  | unauthorized (msg : String)
  | notFound (msg : String)
  | gone (msg : String)
  | internal (msg : String)
deriving Repr, DecidableEq

/-- JS truthiness of an optional string value: `undefined` and the empty
string are falsy, every other string is truthy. -/
def strTruthy : Option String → Bool
  | none => false
  | some s => s != ""

/-- JS `x || d` for an optional string `x`: the default is used when the
value is absent or the empty string. -/
def jsStrOr (o : Option String) (d : String) : String :=
  match o with
  | none => d
  | some s => if s == "" then d else s

/-- JS `x || d` for an optional boolean `x`: the default is used when the
value is absent or `false`. -/
def jsBoolOr (o : Option Bool) (d : Bool) : Bool :=
  match o with
  | none => d
  | some b => if b then b else d

/-- JS `x || d` for an integer `x` that may be `NaN` (modelled as `none`):
`NaN` and `0` are falsy, so both fall back to the default. -/
def jsIntOr (o : Option Int) (d : Int) : Int :=
  match o with
  | none => d
  | some n => if n = 0 then d else n

/-! ## Products (`src/index.js:18-29` and `src/unnamed/part_000:18-29`, identical) -/

/-- A row of the Product table. -/
structure Product where
  id : String
  name : String
  description : String
  price : ℚ
  imageUrl : String
  stock : Int
  active : Bool
deriving Repr, DecidableEq

/-- Ordering used by `orderBy: { name: 'asc' }` on products. -/
def productLe (a b : Product) : Prop := a.name ≤ b.name

instance : DecidableRel productLe :=
  fun a b => inferInstanceAs (Decidable (a.name ≤ b.name))

instance : IsTotal Product productLe :=
  ⟨fun a b => le_total a.name b.name⟩

instance : IsTrans Product productLe :=
  ⟨fun _ _ _ hab hbc => le_trans hab hbc⟩

/-- GET `/api/products`: `findMany({ where: { active: true }, orderBy: { name: 'asc' } })`.
The handler is byte-identical in both revisions. -/
def getProducts (products : List Product) : List Product :=
  List.insertionSort productLe (products.filter (fun p => p.active))

/-! ## Orders (`src/index.js:98-132` v1, `src/unnamed/part_000:109-139` v2) -/

/-- A line item as submitted in the order-creation body and as stored on the
order; `price` is the numeric value of the submitted price (the handler
applies `parseFloat` to it when summing, and stores it on the OrderItem). -/
structure OrderItemRec where
  productId : String
  quantity : ℚ
  price : ℚ
deriving Repr, DecidableEq

/-- A row of the Order table (with its owned OrderItem rows inlined). -/
structure OrderRec where
  id : String
  customerId : Option String
  customerName : Option String
  status : String
  totalAmount : ℚ
  palmDeviceId : Option String
  createdAt : Nat
  completedAt : Option Nat
  items : List OrderItemRec
deriving Repr, DecidableEq

/-- The `items.reduce((sum, item) => sum + (parseFloat(item.price) * item.quantity), 0)`
expression shared by both order-creation handlers. -/
def orderTotal (items : List OrderItemRec) : ℚ :=
  items.foldl (fun sum item => sum + item.price * item.quantity) 0

/-- POST `/api/orders` in the first revision (`src/index.js:98-132`): rejects a
falsy `palmDeviceId` with 400; a body without an `items` field makes
`items.reduce` throw, which the catch block turns into a 500; otherwise the
order is created with `totalAmount` summed from the submitted items.
`status := "pending"` and `createdAt := now` are the Prisma schema defaults
(the schema file is not under `src/`; the spec's state model starts orders
as pending). -/
def createOrderV1 (now : Nat) (newId : String) (customerId customerName : Option String)
    (items : Option (List OrderItemRec)) (palmDeviceId : Option String) :
    Except ApiError OrderRec :=
  if !strTruthy palmDeviceId then
    .error (.badRequest "Device selection required")
  else
    match items with
    | none => .error (.internal "Failed to create order")
    | some its =>
        .ok { id := newId, customerId := customerId, customerName := customerName,
              status := "pending", totalAmount := orderTotal its,
              palmDeviceId := palmDeviceId, createdAt := now, completedAt := none,
              items := its }

/-- POST `/api/orders` in the later revision (`src/unnamed/part_000:109-139`):
identical to v1 except the `palmDeviceId` check is gone. -/
def createOrderV2 (now : Nat) (newId : String) (customerId customerName : Option String)
    (items : Option (List OrderItemRec)) (palmDeviceId : Option String) :
    Except ApiError OrderRec :=
  match items with
  | none => .error (.internal "Failed to create order")
  | some its =>
      .ok { id := newId, customerId := customerId, customerName := customerName,
            status := "pending", totalAmount := orderTotal its,
            palmDeviceId := palmDeviceId, createdAt := now, completedAt := none,
            items := its }

/-! ## Palm devices and bearer authentication
(`src/index.js:158-191` v1 next-order; `src/unnamed/part_000:183-199` v2
next-order, `348-382` auth-log, `202-222` complete-order) -/

/-- A row of the PalmDevice table; `apiToken` is the unique bearer credential. -/
structure PalmDevice where
  id : String
  name : String
  location : String
  apiToken : String
  active : Bool
deriving Repr, DecidableEq

/-- Ordering used by `orderBy: { createdAt: 'asc' }` on orders. -/
def orderCreatedLe (a b : OrderRec) : Prop := a.createdAt ≤ b.createdAt

instance : DecidableRel orderCreatedLe :=
  fun a b => inferInstanceAs (Decidable (a.createdAt ≤ b.createdAt))

instance : IsTotal OrderRec orderCreatedLe :=
  ⟨fun a b => Nat.le_total a.createdAt b.createdAt⟩

instance : IsTrans OrderRec orderCreatedLe :=
  ⟨fun _ _ _ hab hbc => Nat.le_trans hab hbc⟩

/-- GET `/api/palm/next-order` in the first revision (`src/index.js:158-191`):
401 when the Authorization header is absent or does not start with
`Bearer `; the token after the scheme is looked up with
`findUnique({ where: { apiToken: token } })` and 401 is returned when no
device matches; otherwise `findFirst` returns the oldest pending order
whose `palmDeviceId` is the authenticated device's id, or null. -/
def nextOrderV1 (devices : List PalmDevice) (orders : List OrderRec)
    (authHeader : Option String) : Except ApiError (Option OrderRec) :=
  match authHeader with
  | none => .error (.unauthorized "Missing authorization token")
  | some h =>
    if !h.startsWith "Bearer " then
      .error (.unauthorized "Missing authorization token")
    else
      match devices.find? (fun d => d.apiToken == h.drop 7) with
      | none => .error (.unauthorized "Invalid device token")
      | some device =>
          .ok (List.insertionSort orderCreatedLe
                (orders.filter
                  (fun o => o.status == "pending" && o.palmDeviceId == some device.id))).head?

/-- GET `/api/palm/next-order` in the later revision
(`src/unnamed/part_000:183-199`): no Authorization header is read and no
device filter is applied; `findFirst({ where: { status: 'pending' },
orderBy: { createdAt: 'asc' } })` returns the globally oldest pending order,
or null when none exists. -/
def nextOrderV2 (orders : List OrderRec) : Option OrderRec :=
  (List.insertionSort orderCreatedLe
    (orders.filter (fun o => o.status == "pending"))).head?

/-- POST `/api/palm/complete-order/:id` in the later revision
(`src/unnamed/part_000:202-222`): `order.update` throws when no order has
the id (caught as 500); otherwise the update data is `status` (a Prisma
`undefined` field is skipped, leaving the column unchanged),
`completedAt: new Date()`, and — via `...(customerName && { customerName })` —
`customerName` only when the submitted value is truthy. -/
def completeOrderV2 (orders : List OrderRec) (id : String)
    (status : Option String) (customerName : Option String) (now : Nat) :
    Except ApiError OrderRec :=
  match orders.find? (fun o => o.id == id) with
  | none => .error (.internal "Failed to complete order")
  | some o =>
      .ok { o with
            status := status.getD o.status,
            completedAt := some now,
            customerName := if strTruthy customerName then customerName else o.customerName }

/-- A row of the DeviceAuthenticationLog table, with exactly the fields the
auth-log handler writes. -/
structure DeviceAuthLog where
  palmDeviceId : Option String
  deviceType : String
  location : String
  success : Bool
  reason : String
  timestamp : Nat
deriving Repr, DecidableEq

/-- POST `/api/palm-devices/auth-log` in the later revision
(`src/unnamed/part_000:348-382`): 401 when the Authorization header is
absent or not `Bearer `-prefixed (`!authHeader?.startsWith('Bearer ')`),
401 when the token matches no device's `apiToken`; otherwise a
DeviceAuthenticationLog row is created with `||`-defaulted fields. -/
def authLogHandler (devices : List PalmDevice) (authHeader : Option String)
    (deviceType location : Option String) (success : Option Bool)
    (reason : Option String) (now : Nat) : Except ApiError DeviceAuthLog :=
  match authHeader with
  | none => .error (.unauthorized "Unauthorized")
  | some h =>
    if !h.startsWith "Bearer " then
      .error (.unauthorized "Unauthorized")
    else
      match devices.find? (fun d => d.apiToken == h.drop 7) with
      | none => .error (.unauthorized "Invalid token")
      | some device =>
          .ok { palmDeviceId := some device.id,
                deviceType := jsStrOr deviceType "palm",
                location := jsStrOr location "Unknown",
                success := jsBoolOr success false,
                reason := jsStrOr reason "Authentication failed",
                timestamp := now }

/-! ## Enrollment-token store (`src/unnamed/part_000:504-564`) -/

/-- A value of the in-memory `enrollmentTokens` map:
`{ palmFeatures, createdAt, expiresAt }`. -/
structure EnrollmentEntry where
  palmFeatures : String
  createdAt : Nat
  expiresAt : Nat
deriving Repr, DecidableEq

/-- The in-memory `enrollmentTokens` JS `Map`, as an association list with
unique keys; `Map.get` is `lookup`, `Map.delete` removes the key's entry. -/
abbrev EnrollmentStore := List (String × EnrollmentEntry)

/-- Outcome of GET `/api/v1/palm/enrollment/:token`: 200 with the stored
payload, 404, or 410. -/
inductive EnrollmentResult where
  | ok (palmFeatures : String) (createdAt : Nat)
  | notFound
  | gone
deriving Repr, DecidableEq

/-- POST `/api/v1/palm/generate-enrollment-qr`
(`src/unnamed/part_000:508-537`): stores the submitted `palmFeatures` under
a fresh token with `createdAt := now` and `expiresAt := now + 10*60*1000`
milliseconds, and responds with the token and `expiresIn := 600` seconds. -/
def generateEnrollmentQr (store : EnrollmentStore) (token : String)
    (palmFeatures : String) (now : Nat) : EnrollmentStore × Nat :=
  ((token, { palmFeatures := palmFeatures, createdAt := now,
             expiresAt := now + 10 * 60 * 1000 }) :: store, 600)

/-- GET `/api/v1/palm/enrollment/:token` (`src/unnamed/part_000:540-564`):
404 when the token is not in the map; 410 — and the entry is deleted — when
`Date.now() > enrollment.expiresAt` (strict comparison); otherwise 200 with
the original `palmFeatures` and `createdAt`.  Returns the response together
with the store state after the request. -/
def getEnrollment (now : Nat) (store : EnrollmentStore) (token : String) :
    EnrollmentResult × EnrollmentStore :=
  match store.lookup token with
  | none => (.notFound, store)
  | some e =>
      if e.expiresAt < now then
        (.gone, store.filter (fun p => p.1 != token))
      else
        (.ok e.palmFeatures e.createdAt, store)

/-! ## Users and audit logs (`src/unnamed/part_000:271-345, 567-619`) -/

/-- A row of the Card table (only the fields the handlers touch). -/
structure Card where
  id : String
  userId : String
deriving Repr, DecidableEq

/-- A row of the PalmTemplate table (only the fields the handlers in the
claims touch). -/
structure PalmTemplate where
  id : String
  userId : String
  active : Bool
deriving Repr, DecidableEq

/-- A row of the AuthenticationLog table; `authenticatedAt` is the timestamp
the paginated endpoints sort on. -/
structure AuthLogRec where
  id : String
  userId : String
  authenticatedAt : Nat
deriving Repr, DecidableEq

/-- A row of the User table. -/
structure UserRec where
  id : String
  displayName : String
  email : String
  createdAt : Nat
deriving Repr, DecidableEq

/-- The relational store as the user/audit handlers see it. -/
structure Db where
  cards : List Card
  palmTemplates : List PalmTemplate
  authenticationLogs : List AuthLogRec
  users : List UserRec
deriving Repr, DecidableEq

/-- DELETE `/api/v1/users/:userId` (`src/unnamed/part_000:583-598`): runs
`card.deleteMany`, `palmTemplate.deleteMany`, `authenticationLog.deleteMany`
on the user id in that order, then `user.delete({ where: { id } })`; the
final `delete` throws when no such user exists, which the catch block turns
into a 500 (after the three `deleteMany` calls already ran). -/
def deleteUser (db : Db) (userId : String) : Except ApiError Unit × Db :=
  let db1 : Db :=
    { db with
      cards := db.cards.filter (fun c => c.userId != userId),
      palmTemplates := db.palmTemplates.filter (fun t => t.userId != userId),
      authenticationLogs := db.authenticationLogs.filter (fun l => l.userId != userId) }
  if db1.users.any (fun u => u.id == userId) then
    (.ok (), { db1 with users := db1.users.filter (fun u => u.id != userId) })
  else
    (.error (.internal "Failed to delete user"), db1)

/-! ## JS `parseInt` and the paginated audit-log endpoints
(`src/unnamed/part_000:293-311` auth-logs, `601-619` auth-history) -/

/-- Whitespace characters skipped by JS `parseInt`, by code point
(tab 9, LF 10, VT 11, FF 12, CR 13, space 32). -/
def isJsSpace (c : Char) : Bool :=
  (9 ≤ c.toNat && c.toNat ≤ 13) || c.toNat == 32

/-- Numeric value of one digit character in a base up to 16, by code point
(decimal digits 48-57, lower-case letters from 97, upper-case from 65);
`none` for a character that is no digit of that base. -/
def charDigit (base : Nat) (c : Char) : Option Nat :=
  let n := c.toNat
  let v : Option Nat :=
    if 48 ≤ n ∧ n ≤ 57 then some (n - 48)
    else if 97 ≤ n ∧ n ≤ 122 then some (n - 87)
    else if 65 ≤ n ∧ n ≤ 90 then some (n - 55)
    else none
  match v with
  | some k => if k < base then some k else none
  | none => none

/-- Accumulator loop behind `digitsValue`: consumes the longest prefix of
digits of the base, `none` when no digit was consumed. -/
def digitsLoop (base : Nat) : List Char → Option Nat → Option Nat
  | [], acc => acc
  | c :: rest, acc =>
      match charDigit base c with
      | some v => digitsLoop base rest (some (acc.getD 0 * base + v))
      | none => acc

/-- Value of the longest digit prefix of a character list in the given base,
`none` when that prefix is empty. -/
def digitsValue (base : Nat) (cs : List Char) : Option Nat :=
  digitsLoop base cs none

/-- JS `parseInt(s)` (radix argument omitted): skip leading whitespace, read
an optional sign, detect a `0x`/`0X` hex prefix, then take the longest
prefix of valid digits; `none` models `NaN`. -/
def jsParseInt (s : String) : Option Int :=
  let cs := s.toList.dropWhile isJsSpace
  let (sign, cs1) : Int × List Char :=
    match cs with
    | '-' :: rest => (-1, rest)
    | '+' :: rest => (1, rest)
    | _ => (1, cs)
  let mag : Option Nat :=
    match cs1 with
    | '0' :: c :: rest =>
        if c == 'x' || c == 'X' then digitsValue 16 rest
        else digitsValue 10 cs1
    | _ => digitsValue 10 cs1
  mag.map (fun n => sign * n)

/-- `parseInt(req.query.limit)` where the query parameter may be absent
(`parseInt(undefined)` is `NaN`). -/
def queryInt (q : Option String) : Option Int :=
  match q with
  | none => none
  | some s => jsParseInt s

/-- `const limit = parseInt(req.query.limit) || 50` (both paginated
endpoints). -/
def limitOf (q : Option String) : Int := jsIntOr (queryInt q) 50

/-- `const offset = parseInt(req.query.offset) || 0` (both paginated
endpoints). -/
def offsetOf (q : Option String) : Int := jsIntOr (queryInt q) 0

/-- Prisma `take: n`: the first `n` records for `n ≥ 0`, the last `|n|`
records for negative `n`. -/
def prismaTake {α : Type} (n : Int) (l : List α) : List α :=
  if 0 ≤ n then l.take n.toNat else l.drop (l.length - n.natAbs)

/-- Prisma `skip: n` for the non-negative `n` these handlers can produce
(Prisma rejects a negative skip at runtime). -/
def prismaSkip {α : Type} (n : Int) (l : List α) : List α :=
  l.drop n.toNat

/-- Ordering used by `orderBy: { authenticatedAt: 'desc' }`. -/
def authLogDesc (a b : AuthLogRec) : Prop := b.authenticatedAt ≤ a.authenticatedAt

instance : DecidableRel authLogDesc :=
  fun a b => inferInstanceAs (Decidable (b.authenticatedAt ≤ a.authenticatedAt))

instance : IsTotal AuthLogRec authLogDesc :=
  ⟨fun a b => Nat.le_total b.authenticatedAt a.authenticatedAt⟩

instance : IsTrans AuthLogRec authLogDesc :=
  ⟨fun _ _ _ hab hbc => Nat.le_trans hbc hab⟩

/-- The `findMany({ where: { userId }, orderBy: { authenticatedAt: 'desc' },
take: limit, skip: offset })` query shared by both paginated endpoints. -/
def authLogPage (logs : List AuthLogRec) (userId : String)
    (limitQ offsetQ : Option String) : List AuthLogRec :=
  prismaTake (limitOf limitQ)
    (prismaSkip (offsetOf offsetQ)
      (List.insertionSort authLogDesc (logs.filter (fun l => l.userId == userId))))

/-- GET `/api/v1/users/:userId/auth-logs` (`src/unnamed/part_000:293-311`):
responds with the page itself. -/
def authLogsHandler (logs : List AuthLogRec) (userId : String)
    (limitQ offsetQ : Option String) : List AuthLogRec :=
  authLogPage logs userId limitQ offsetQ

/-- Response shape of GET `/api/v1/users/:userId/auth-history`:
`{ logs, total: logs.length, limit, offset }`. -/
structure AuthHistoryResponse where
  logs : List AuthLogRec
  total : Nat
  limit : Int
  offset : Int
deriving Repr, DecidableEq

/-- GET `/api/v1/users/:userId/auth-history` (`src/unnamed/part_000:601-619`):
the same query as `/auth-logs`, wrapped with `total := logs.length` — the
length of the returned page, not a count of all matching rows. -/
def authHistory (logs : List AuthLogRec) (userId : String)
    (limitQ offsetQ : Option String) : AuthHistoryResponse :=
  let page := authLogPage logs userId limitQ offsetQ
  { logs := page, total := page.length,
    limit := limitOf limitQ, offset := offsetOf offsetQ }

/-- Proposition that the bearer-auth check rejects a request: the header is
absent, or not `Bearer `-prefixed, or no device's `apiToken` equals the
presented token. -/
@[reducible] def authRejected (devices : List PalmDevice) (h : Option String) : Prop :=
  h = none ∨ ∃ s, h = some s ∧
    (s.startsWith "Bearer " = false ∨ ∀ d ∈ devices, d.apiToken ≠ s.drop 7)

theorem foldl_add_map_sum {α : Type} (f : α → ℚ) :
    ∀ (l : List α) (init : ℚ),
      l.foldl (fun sum i => sum + f i) init = init + (l.map f).sum := by
  intro l
  induction l with
  | nil => intro init; simp
  | cons hd tl ih =>
      intro init
      simp [List.foldl_cons, ih, add_assoc]

theorem orderTotal_eq_sum (items : List OrderItemRec) :
    orderTotal items = (items.map (fun i => i.price * i.quantity)).sum := by
  have h := foldl_add_map_sum (fun i : OrderItemRec => i.price * i.quantity) items 0
  simpa [orderTotal] using h

/-- Claim C1: for every order-creation request with an item list, in both
revisions, the created and returned order's `totalAmount` equals
Σ item.price × item.quantity over the submitted items, with the submitted
prices used as-is (the record's items are the submitted items; v1 reaches
the creation only when `palmDeviceId` is truthy). -/
theorem createOrder_totalAmount (now : Nat) (newId : String)
    (cid cn : Option String) (items : List OrderItemRec) (pdid : Option String)
    (hdev : strTruthy pdid = true) :
    (∃ o, createOrderV1 now newId cid cn (some items) pdid = .ok o ∧
       o.totalAmount = (items.map (fun i => i.price * i.quantity)).sum ∧
       o.items = items) ∧
    (∃ o, createOrderV2 now newId cid cn (some items) pdid = .ok o ∧
       o.totalAmount = (items.map (fun i => i.price * i.quantity)).sum ∧
       o.items = items) := by
  have e1 : createOrderV1 now newId cid cn (some items) pdid =
      .ok { id := newId, customerId := cid, customerName := cn, status := "pending",
            totalAmount := orderTotal items, palmDeviceId := pdid, createdAt := now,
            completedAt := none, items := items } := by
    simp [createOrderV1, hdev]
  exact ⟨⟨_, e1, orderTotal_eq_sum items, rfl⟩, ⟨_, rfl, orderTotal_eq_sum items, rfl⟩⟩

theorem createOrder_totalAmount_witness :
    (∃ o, createOrderV1 7 "o1" none none
        (some [{ productId := "p1", quantity := 2, price := 7/2 },
               { productId := "p2", quantity := 1, price := 5 }]) (some "d1") = .ok o ∧
       o.totalAmount = (([{ productId := "p1", quantity := 2, price := 7/2 },
               { productId := "p2", quantity := 1, price := 5 }] : List OrderItemRec).map
              (fun i => i.price * i.quantity)).sum ∧
       o.items = [{ productId := "p1", quantity := 2, price := 7/2 },
               { productId := "p2", quantity := 1, price := 5 }]) ∧
    (∃ o, createOrderV2 7 "o1" none none
        (some [{ productId := "p1", quantity := 2, price := 7/2 },
               { productId := "p2", quantity := 1, price := 5 }]) (some "d1") = .ok o ∧
       o.totalAmount = (([{ productId := "p1", quantity := 2, price := 7/2 },
               { productId := "p2", quantity := 1, price := 5 }] : List OrderItemRec).map
              (fun i => i.price * i.quantity)).sum ∧
       o.items = [{ productId := "p1", quantity := 2, price := 7/2 },
               { productId := "p2", quantity := 1, price := 5 }]) :=
  createOrder_totalAmount 7 "o1" none none
    [{ productId := "p1", quantity := 2, price := 7/2 },
     { productId := "p2", quantity := 1, price := 5 }] (some "d1") (by decide)

/-- Claim C9: in both revisions (the handler is identical in each),
GET `/api/products` returns exactly the products whose `active` flag is
true, sorted ascending by name: every returned product is active and from
the store, the result is sorted, it is a permutation of the active subset,
and every active product of the store appears in it. -/
theorem getProducts_spec (products : List Product) :
    (∀ p ∈ getProducts products, p.active = true ∧ p ∈ products) ∧
    List.Sorted productLe (getProducts products) ∧
    (getProducts products).Perm (products.filter (fun p => p.active)) ∧
    (∀ p ∈ products, p.active = true → p ∈ getProducts products) := by
  have hperm := List.perm_insertionSort productLe (products.filter (fun p => p.active))
  refine ⟨?_, ?_, hperm, ?_⟩
  · intro p hp
    have hmem := hperm.mem_iff.mp hp
    have := List.mem_filter.mp hmem
    exact ⟨this.2, this.1⟩
  · exact List.sorted_insertionSort productLe _
  · intro p hp hactive
    exact hperm.mem_iff.mpr (List.mem_filter.mpr ⟨hp, hactive⟩)

theorem getProducts_spec_witness :
    { id := "1", name := "apple", description := "", price := 2, imageUrl := "",
      stock := 3, active := true : Product } ∈
      getProducts
        [{ id := "1", name := "apple", description := "", price := 2, imageUrl := "",
           stock := 3, active := true },
         { id := "2", name := "banana", description := "", price := 1, imageUrl := "",
           stock := 0, active := false }] :=
  (getProducts_spec
      [{ id := "1", name := "apple", description := "", price := 2, imageUrl := "",
         stock := 3, active := true },
       { id := "2", name := "banana", description := "", price := 1, imageUrl := "",
         stock := 0, active := false }]).2.2.2
    { id := "1", name := "apple", description := "", price := 2, imageUrl := "",
      stock := 3, active := true }
    (by simp) rfl

/-- Claim C5: in the later revision, GET `/api/palm/next-order` takes no
credentials and no device parameter: for every order-store state it returns
null exactly when no pending order exists, and any order it returns is a
pending order of the store whose `createdAt` is minimal among all pending
orders, whatever device each order was created for. -/
theorem nextOrderV2_spec (orders : List OrderRec) :
    (nextOrderV2 orders = none ↔ ∀ o ∈ orders, o.status ≠ "pending") ∧
    (∀ o, nextOrderV2 orders = some o →
       o ∈ orders ∧ o.status = "pending" ∧
       ∀ o2 ∈ orders, o2.status = "pending" → o.createdAt ≤ o2.createdAt) := by
  have hperm := List.perm_insertionSort orderCreatedLe
    (orders.filter (fun o => o.status == "pending"))
  have hsorted := List.sorted_insertionSort orderCreatedLe
    (orders.filter (fun o => o.status == "pending"))
  constructor
  · rw [nextOrderV2, List.head?_eq_none_iff]
    constructor
    · intro hnil o ho hs
      have : o ∈ List.insertionSort orderCreatedLe
          (orders.filter (fun o => o.status == "pending")) :=
        hperm.mem_iff.mpr (List.mem_filter.mpr ⟨ho, by simp [hs]⟩)
      simp [hnil] at this
    · intro hall
      have hnil : orders.filter (fun o => o.status == "pending") = [] := by
        rw [List.filter_eq_nil_iff]
        intro o ho
        simp [hall o ho]
      rw [List.eq_nil_iff_forall_not_mem]
      intro o ho
      have := hperm.mem_iff.mp ho
      simp [hnil] at this
  · intro o hhead
    have hmemSorted : o ∈ List.insertionSort orderCreatedLe
        (orders.filter (fun o => o.status == "pending")) :=
      List.mem_of_mem_head? hhead
    have hmemFilter := hperm.mem_iff.mp hmemSorted
    have hmem := List.mem_filter.mp hmemFilter
    refine ⟨hmem.1, by simpa using hmem.2, ?_⟩
    intro o2 ho2 hs2
    have hmem2 : o2 ∈ List.insertionSort orderCreatedLe
        (orders.filter (fun o => o.status == "pending")) :=
      hperm.mem_iff.mpr (List.mem_filter.mpr ⟨ho2, by simp [hs2]⟩)
    rcases hsort : List.insertionSort orderCreatedLe
        (orders.filter (fun o => o.status == "pending")) with _ | ⟨a, tl⟩
    · rw [nextOrderV2, hsort] at hhead
      simp at hhead
    · rw [nextOrderV2, hsort] at hhead
      have ha : a = o := by simpa using hhead
      rw [hsort] at hsorted hmem2
      rcases List.mem_cons.mp hmem2 with h2 | h2
      · rw [h2, ha]
      · have hle := (List.sorted_cons.mp hsorted).1 o2 h2
        rw [ha] at hle
        exact hle

theorem nextOrderV2_spec_witness :
    { id := "o2", customerId := none, customerName := none, status := "pending",
      totalAmount := 0, palmDeviceId := some "dB", createdAt := 3, completedAt := none,
      items := [] : OrderRec } ∈
      ([{ id := "o1", customerId := none, customerName := none, status := "pending",
          totalAmount := 0, palmDeviceId := some "dA", createdAt := 5, completedAt := none,
          items := [] },
        { id := "o2", customerId := none, customerName := none, status := "pending",
          totalAmount := 0, palmDeviceId := some "dB", createdAt := 3, completedAt := none,
          items := [] }] : List OrderRec) ∧
    ({ id := "o2", customerId := none, customerName := none, status := "pending",
       totalAmount := 0, palmDeviceId := some "dB", createdAt := 3, completedAt := none,
       items := [] : OrderRec }).status = "pending" :=
  ⟨((nextOrderV2_spec
      [{ id := "o1", customerId := none, customerName := none, status := "pending",
         totalAmount := 0, palmDeviceId := some "dA", createdAt := 5, completedAt := none,
         items := [] },
       { id := "o2", customerId := none, customerName := none, status := "pending",
         totalAmount := 0, palmDeviceId := some "dB", createdAt := 3, completedAt := none,
         items := [] }]).2
      { id := "o2", customerId := none, customerName := none, status := "pending",
        totalAmount := 0, palmDeviceId := some "dB", createdAt := 3, completedAt := none,
        items := [] } (by decide)).1,
   ((nextOrderV2_spec
      [{ id := "o1", customerId := none, customerName := none, status := "pending",
         totalAmount := 0, palmDeviceId := some "dA", createdAt := 5, completedAt := none,
         items := [] },
       { id := "o2", customerId := none, customerName := none, status := "pending",
         totalAmount := 0, palmDeviceId := some "dB", createdAt := 3, completedAt := none,
         items := [] }]).2
      { id := "o2", customerId := none, customerName := none, status := "pending",
        totalAmount := 0, palmDeviceId := some "dB", createdAt := 3, completedAt := none,
        items := [] } (by decide)).2.1⟩

/-- Claim C4: in the later revision, POST `/api/palm/complete-order/:id` on the
order the id resolves to updates exactly `status` (to the submitted value),
`completedAt` (to now), and — only when the submitted `customerName` is
truthy — `customerName`; every other field, `customerId` in particular, is
returned unchanged. -/
theorem completeOrderV2_frame (orders : List OrderRec) (id st : String)
    (cn : Option String) (now : Nat) (o : OrderRec)
    (hfind : orders.find? (fun o2 => o2.id == id) = some o) :
    ∃ r, completeOrderV2 orders id (some st) cn now = .ok r ∧
      r.status = st ∧ r.completedAt = some now ∧
      (strTruthy cn = true → r.customerName = cn) ∧
      (strTruthy cn = false → r.customerName = o.customerName) ∧
      r.id = o.id ∧ r.customerId = o.customerId ∧ r.totalAmount = o.totalAmount ∧
      r.palmDeviceId = o.palmDeviceId ∧ r.createdAt = o.createdAt ∧
      r.items = o.items := by
  refine ⟨{ o with status := st, completedAt := some now, customerName := if strTruthy cn then cn else o.customerName }, ?_, rfl, rfl, ?_, ?_, rfl, rfl, rfl, rfl, rfl, rfl⟩
  · simp [completeOrderV2, hfind]
  · intro hcn; simp [hcn]
  · intro hcn; simp [hcn]

theorem completeOrderV2_frame_witness :
    ∃ r, completeOrderV2
        [{ id := "ord1", customerId := some "c1", customerName := some "Bob",
           status := "pending", totalAmount := 0, palmDeviceId := some "d1",
           createdAt := 1, completedAt := none, items := [] }]
        "ord1" (some "completed") (some "Alice") 99 = .ok r ∧
      r.status = "completed" ∧ r.completedAt = some 99 ∧
      (strTruthy (some "Alice") = true → r.customerName = some "Alice") ∧
      (strTruthy (some "Alice") = false → r.customerName = some "Bob") ∧
      r.id = "ord1" ∧ r.customerId = some "c1" ∧ r.totalAmount = 0 ∧
      r.palmDeviceId = some "d1" ∧ r.createdAt = 1 ∧
      r.items = [] :=
  completeOrderV2_frame
    [{ id := "ord1", customerId := some "c1", customerName := some "Bob",
       status := "pending", totalAmount := 0, palmDeviceId := some "d1",
       createdAt := 1, completedAt := none, items := [] }]
    "ord1" "completed" (some "Alice") 99
    { id := "ord1", customerId := some "c1", customerName := some "Bob",
      status := "pending", totalAmount := 0, palmDeviceId := some "d1",
      createdAt := 1, completedAt := none, items := [] }
    (by decide)

theorem lookup_filter_self (store : EnrollmentStore) (token : String) :
    (store.filter (fun p => p.1 != token)).lookup token = none := by
  induction store with
  | nil => rfl
  | cons hd tl ih =>
      rcases hd with ⟨k, v⟩
      by_cases h : k = token
      · have hp : (k != token) = false := by simp [h]
        rw [List.filter_cons]
        simp only [hp]
        simpa using ih
      · have hp : (k != token) = true := by simp [h]
        rw [List.filter_cons]
        simp only [hp, if_true]
        have hne : (token == k) = false := by
          simp only [beq_eq_false_iff_ne, ne_eq]
          exact fun he => h he.symm
        simpa [List.lookup, hne] using ih

/-- Claim C2 counterexample: a token stored with expiry instant 100, read exactly
at instant 100 (so at, not strictly before, its expiry), is answered with
200 and its original payload, not with the 410 the claim requires for the
first read at-or-after expiry — the code's check `Date.now() > expiresAt`
is strict. -/
theorem getEnrollment_at_expiry_ok :
    (getEnrollment 100
        [("t", { palmFeatures := "f", createdAt := 0, expiresAt := 100 })] "t").1 =
      .ok "f" 0 ∧
    (getEnrollment 100
        [("t", { palmFeatures := "f", createdAt := 0, expiresAt := 100 })] "t").1 ≠
      .gone := by
  constructor
  · rfl
  · intro h
    simp [getEnrollment, List.lookup] at h

/-- Claim C2 (amended): a stored enrollment token read at any instant up to and
including its expiry instant is answered with 200 and its original
`palmFeatures` payload, leaving the store unchanged; a read strictly after
the expiry instant is answered 410 and deletes the token, so that every
subsequent read of it (at any instant) is answered 404; a token not in the
store is answered 404. -/
theorem getEnrollment_spec (now : Nat) (store : EnrollmentStore) (token : String) :
    (store.lookup token = none → getEnrollment now store token = (.notFound, store)) ∧
    (∀ e, store.lookup token = some e → now ≤ e.expiresAt →
       getEnrollment now store token = (.ok e.palmFeatures e.createdAt, store)) ∧
    (∀ e, store.lookup token = some e → e.expiresAt < now →
       (getEnrollment now store token).1 = .gone ∧
       ∀ now2, (getEnrollment now2 (getEnrollment now store token).2 token).1 =
         .notFound) := by
  refine ⟨?_, ?_, ?_⟩
  · intro h
    simp [getEnrollment, h]
  · intro e he hle
    simp [getEnrollment, he, Nat.not_lt.mpr hle]
  · intro e he hlt
    constructor
    · simp [getEnrollment, he, hlt]
    · intro now2
      have hstore : (getEnrollment now store token).2 =
          store.filter (fun p => p.1 != token) := by
        simp [getEnrollment, he, hlt]
      rw [hstore]
      simp [getEnrollment, lookup_filter_self]

theorem getEnrollment_spec_witness :
    (getEnrollment 100
        [("t", { palmFeatures := "f", createdAt := 0, expiresAt := 100 })] "t" =
      (.ok "f" 0,
        [("t", { palmFeatures := "f", createdAt := 0, expiresAt := 100 })])) ∧
    ((getEnrollment 101
        [("t", { palmFeatures := "f", createdAt := 0, expiresAt := 100 })] "t").1 =
      .gone ∧
      ∀ now2, (getEnrollment now2
        (getEnrollment 101
          [("t", { palmFeatures := "f", createdAt := 0, expiresAt := 100 })] "t").2
        "t").1 = .notFound) :=
  ⟨(getEnrollment_spec 100
      [("t", { palmFeatures := "f", createdAt := 0, expiresAt := 100 })] "t").2.1
      { palmFeatures := "f", createdAt := 0, expiresAt := 100 } rfl (by decide),
   (getEnrollment_spec 101
      [("t", { palmFeatures := "f", createdAt := 0, expiresAt := 100 })] "t").2.2
      { palmFeatures := "f", createdAt := 0, expiresAt := 100 } rfl (by decide)⟩

/-- Claim C3 counterexample: an order-creation request with an empty item list is
accepted by both revisions (the claim requires a non-empty list in both),
and the later revision accepts it even with no `palmDeviceId` at all (the
claim requires a device id in the later revision; it is the first revision
that checks it). -/
theorem createOrder_empty_items_accepted :
    createOrderV2 0 "o1" none none (some []) none =
      .ok { id := "o1", customerId := none, customerName := none, status := "pending", totalAmount := 0, palmDeviceId := none, createdAt := 0, completedAt := none, items := [] } ∧
    createOrderV1 0 "o1" none none (some []) (some "d1") =
      .ok { id := "o1", customerId := none, customerName := none, status := "pending", totalAmount := 0, palmDeviceId := some "d1", createdAt := 0, completedAt := none, items := [] } := by
  constructor
  · rfl
  · rfl

/-- Claim C3 (amended): the first revision rejects a falsy `palmDeviceId` with a
400 and creates no order, and with a truthy `palmDeviceId` creates an order
for any submitted item list, the empty list included; the later revision has
no `palmDeviceId` requirement and likewise creates an order for any item
list; in both revisions a body with no `items` field at all is rejected
with a 500 (no order is created), and neither revision rejects an empty
item list. -/
theorem createOrder_validation (now : Nat) (newId : String)
    (cid cn : Option String) (items : Option (List OrderItemRec))
    (pdid : Option String) :
    (strTruthy pdid = false →
       createOrderV1 now newId cid cn items pdid =
         .error (.badRequest "Device selection required")) ∧
    (strTruthy pdid = true → items = none →
       createOrderV1 now newId cid cn items pdid =
         .error (.internal "Failed to create order")) ∧
    (∀ l, strTruthy pdid = true → items = some l →
       ∃ o, createOrderV1 now newId cid cn items pdid = .ok o) ∧
    (items = none →
       createOrderV2 now newId cid cn items pdid =
         .error (.internal "Failed to create order")) ∧
    (∀ l, items = some l →
       ∃ o, createOrderV2 now newId cid cn items pdid = .ok o) := by
  refine ⟨?_, ?_, ?_, ?_, ?_⟩
  · intro h
    simp [createOrderV1, h]
  · intro h hi
    simp [createOrderV1, h, hi]
  · intro l h hi
    subst hi
    exact ⟨{ id := newId, customerId := cid, customerName := cn, status := "pending", totalAmount := orderTotal l, palmDeviceId := pdid, createdAt := now, completedAt := none, items := l }, by simp [createOrderV1, h]⟩
  · intro hi
    subst hi
    rfl
  · intro l hi
    subst hi
    exact ⟨_, rfl⟩

theorem createOrder_validation_witness :
    (createOrderV1 0 "o1" none none (some []) none =
       .error (.badRequest "Device selection required")) ∧
    (createOrderV1 0 "o1" none none none (some "d1") =
       .error (.internal "Failed to create order")) ∧
    (∃ o, createOrderV1 0 "o1" none none (some []) (some "d1") = .ok o) ∧
    (createOrderV2 0 "o1" none none none none =
       .error (.internal "Failed to create order")) ∧
    (∃ o, createOrderV2 0 "o1" none none (some []) none = .ok o) :=
  ⟨(createOrder_validation 0 "o1" none none (some []) none).1 (by decide),
   (createOrder_validation 0 "o1" none none none (some "d1")).2.1 (by decide) rfl,
   (createOrder_validation 0 "o1" none none (some []) (some "d1")).2.2.1 []
     (by decide) rfl,
   (createOrder_validation 0 "o1" none none none none).2.2.2.1 rfl,
   (createOrder_validation 0 "o1" none none (some []) none).2.2.2.2 [] rfl⟩

/-- Claim C6: for both bearer-authenticated handlers — GET `/api/palm/next-order`
in the first revision and POST `/api/palm-devices/auth-log` in the later
one — the request is answered 401 (and the operation not performed) exactly
when the Authorization header is missing, does not use the `Bearer ` scheme,
or carries a token equal to no device's `apiToken`; and a successful lookup
resolves to a stored device whose `apiToken` equals the presented token
exactly. -/
theorem bearerAuth_spec (devices : List PalmDevice) (orders : List OrderRec)
    (hd : Option String) (dt loc : Option String) (suc : Option Bool)
    (rsn : Option String) (now : Nat) :
    ((∃ msg, nextOrderV1 devices orders hd = .error (.unauthorized msg)) ↔
       authRejected devices hd) ∧
    ((∃ msg, authLogHandler devices hd dt loc suc rsn now =
        .error (.unauthorized msg)) ↔ authRejected devices hd) ∧
    (∀ s d, hd = some s →
       devices.find? (fun d2 => d2.apiToken == s.drop 7) = some d →
       d ∈ devices ∧ d.apiToken = s.drop 7) := by
  refine ⟨?_, ?_, ?_⟩
  · cases hd with
    | none =>
        constructor
        · intro _
          exact Or.inl rfl
        · intro _
          exact ⟨"Missing authorization token", rfl⟩
    | some s =>
        by_cases hb : s.startsWith "Bearer "
        · cases hfind : devices.find? (fun d2 => d2.apiToken == s.drop 7) with
          | none =>
              constructor
              · intro _
                refine Or.inr ⟨s, rfl, Or.inr ?_⟩
                intro d hdm
                have hnp := List.find?_eq_none.mp hfind d hdm
                simpa using hnp
              · intro _
                exact ⟨"Invalid device token", by simp [nextOrderV1, hb, hfind]⟩
          | some dev =>
              constructor
              · rintro ⟨msg, hmsg⟩
                simp [nextOrderV1, hb, hfind] at hmsg
              · rintro (h0 | ⟨s2, hs2, hbad⟩)
                · exact absurd h0 (by simp)
                · have hss : s = s2 := by injection hs2
                  subst hss
                  rcases hbad with hbad | hbad
                  · rw [hb] at hbad
                    exact absurd hbad (by simp)
                  · have hmem := List.mem_of_find?_eq_some hfind
                    have hp := List.find?_some hfind
                    exact absurd (by simpa using hp) (hbad dev hmem)
        · constructor
          · intro _
            exact Or.inr ⟨s, rfl, Or.inl (by simpa using hb)⟩
          · intro _
            exact ⟨"Missing authorization token", by simp [nextOrderV1, hb]⟩
  · cases hd with
    | none =>
        constructor
        · intro _
          exact Or.inl rfl
        · intro _
          exact ⟨"Unauthorized", rfl⟩
    | some s =>
        by_cases hb : s.startsWith "Bearer "
        · cases hfind : devices.find? (fun d2 => d2.apiToken == s.drop 7) with
          | none =>
              constructor
              · intro _
                refine Or.inr ⟨s, rfl, Or.inr ?_⟩
                intro d hdm
                have hnp := List.find?_eq_none.mp hfind d hdm
                simpa using hnp
              · intro _
                exact ⟨"Invalid token", by simp [authLogHandler, hb, hfind]⟩
          | some dev =>
              constructor
              · rintro ⟨msg, hmsg⟩
                simp [authLogHandler, hb, hfind] at hmsg
              · rintro (h0 | ⟨s2, hs2, hbad⟩)
                · exact absurd h0 (by simp)
                · have hss : s = s2 := by injection hs2
                  subst hss
                  rcases hbad with hbad | hbad
                  · rw [hb] at hbad
                    exact absurd hbad (by simp)
                  · have hmem := List.mem_of_find?_eq_some hfind
                    have hp := List.find?_some hfind
                    exact absurd (by simpa using hp) (hbad dev hmem)
        · constructor
          · intro _
            exact Or.inr ⟨s, rfl, Or.inl (by simpa using hb)⟩
          · intro _
            exact ⟨"Unauthorized", by simp [authLogHandler, hb]⟩
  · intro s d hs hfind
    exact ⟨List.mem_of_find?_eq_some hfind, by simpa using List.find?_some hfind⟩

theorem bearerAuth_spec_witness :
    ((∃ msg, nextOrderV1
        [{ id := "d1", name := "kiosk", location := "till", apiToken := "tok1",
           active := true }] [] (some "Bearer wrong") = .error (.unauthorized msg)) ↔
      authRejected
        [{ id := "d1", name := "kiosk", location := "till", apiToken := "tok1",
           active := true }] (some "Bearer wrong")) ∧
    ((∃ msg, authLogHandler
        [{ id := "d1", name := "kiosk", location := "till", apiToken := "tok1",
           active := true }] (some "Bearer wrong") none none none none 0 =
        .error (.unauthorized msg)) ↔
      authRejected
        [{ id := "d1", name := "kiosk", location := "till", apiToken := "tok1",
           active := true }] (some "Bearer wrong")) ∧
    (∀ s d, (some "Bearer wrong" : Option String) = some s →
       List.find? (fun d2 => d2.apiToken == s.drop 7)
         [{ id := "d1", name := "kiosk", location := "till", apiToken := "tok1",
            active := true }] = some d →
       d ∈ [{ id := "d1", name := "kiosk", location := "till", apiToken := "tok1",
              active := true : PalmDevice }] ∧ d.apiToken = s.drop 7) :=
  bearerAuth_spec
    [{ id := "d1", name := "kiosk", location := "till", apiToken := "tok1",
       active := true }] [] (some "Bearer wrong") none none none none 0

/-- Claim C7: DELETE `/api/v1/users/:userId` deletes the user's Cards,
PalmTemplates, and AuthenticationLogs before the User row: when the user
exists, the request succeeds and the resulting store holds no card,
template, auth-log, or user row for that user id; when no such user exists,
the handler answers with an error (500), not success. -/
theorem deleteUser_spec (db : Db) (userId : String) :
    ((∃ u ∈ db.users, u.id = userId) →
       (deleteUser db userId).1 = .ok () ∧
       (∀ c ∈ (deleteUser db userId).2.cards, c.userId ≠ userId) ∧
       (∀ t ∈ (deleteUser db userId).2.palmTemplates, t.userId ≠ userId) ∧
       (∀ l ∈ (deleteUser db userId).2.authenticationLogs, l.userId ≠ userId) ∧
       (∀ u ∈ (deleteUser db userId).2.users, u.id ≠ userId)) ∧
    ((∀ u ∈ db.users, u.id ≠ userId) →
       (deleteUser db userId).1 = .error (.internal "Failed to delete user")) := by
  constructor
  · rintro ⟨u, hu, hid⟩
    have hany : db.users.any (fun u => u.id == userId) = true :=
      List.any_eq_true.mpr ⟨u, hu, by simp [hid]⟩
    have h1 : deleteUser db userId =
        (.ok (), { cards := db.cards.filter (fun c => c.userId != userId), palmTemplates := db.palmTemplates.filter (fun t => t.userId != userId), authenticationLogs := db.authenticationLogs.filter (fun l => l.userId != userId), users := db.users.filter (fun u => u.id != userId) }) := by
      simp [deleteUser, hany]
    rw [h1]
    refine ⟨rfl, ?_, ?_, ?_, ?_⟩
    · intro c hc
      have := (List.mem_filter.mp hc).2
      simpa using this
    · intro t ht
      have := (List.mem_filter.mp ht).2
      simpa using this
    · intro l hl
      have := (List.mem_filter.mp hl).2
      simpa using this
    · intro u2 hu2
      have := (List.mem_filter.mp hu2).2
      simpa using this
  · intro hall
    have hany : db.users.any (fun u => u.id == userId) = false := by
      rw [List.any_eq_false]
      intro u hu
      simp [hall u hu]
    simp [deleteUser, hany]

theorem deleteUser_spec_witness :
    (deleteUser
       { cards := [{ id := "c1", userId := "u1" }],
         palmTemplates := [{ id := "t1", userId := "u1", active := true }],
         authenticationLogs := [{ id := "a1", userId := "u1", authenticatedAt := 5 }],
         users := [{ id := "u1", displayName := "U", email := "e", createdAt := 0 }] }
       "u1").1 = .ok () ∧
    (∀ c ∈ (deleteUser
       { cards := [{ id := "c1", userId := "u1" }],
         palmTemplates := [{ id := "t1", userId := "u1", active := true }],
         authenticationLogs := [{ id := "a1", userId := "u1", authenticatedAt := 5 }],
         users := [{ id := "u1", displayName := "U", email := "e", createdAt := 0 }] }
       "u1").2.cards, c.userId ≠ "u1") ∧
    (∀ t ∈ (deleteUser
       { cards := [{ id := "c1", userId := "u1" }],
         palmTemplates := [{ id := "t1", userId := "u1", active := true }],
         authenticationLogs := [{ id := "a1", userId := "u1", authenticatedAt := 5 }],
         users := [{ id := "u1", displayName := "U", email := "e", createdAt := 0 }] }
       "u1").2.palmTemplates, t.userId ≠ "u1") ∧
    (∀ l ∈ (deleteUser
       { cards := [{ id := "c1", userId := "u1" }],
         palmTemplates := [{ id := "t1", userId := "u1", active := true }],
         authenticationLogs := [{ id := "a1", userId := "u1", authenticatedAt := 5 }],
         users := [{ id := "u1", displayName := "U", email := "e", createdAt := 0 }] }
       "u1").2.authenticationLogs, l.userId ≠ "u1") ∧
    (∀ u ∈ (deleteUser
       { cards := [{ id := "c1", userId := "u1" }],
         palmTemplates := [{ id := "t1", userId := "u1", active := true }],
         authenticationLogs := [{ id := "a1", userId := "u1", authenticatedAt := 5 }],
         users := [{ id := "u1", displayName := "U", email := "e", createdAt := 0 }] }
       "u1").2.users, u.id ≠ "u1") :=
  (deleteUser_spec
     { cards := [{ id := "c1", userId := "u1" }],
       palmTemplates := [{ id := "t1", userId := "u1", active := true }],
       authenticationLogs := [{ id := "a1", userId := "u1", authenticatedAt := 5 }],
       users := [{ id := "u1", displayName := "U", email := "e", createdAt := 0 }] }
     "u1").1
    ⟨{ id := "u1", displayName := "U", email := "e", createdAt := 0 }, by simp, rfl⟩

/-- Claim C8: for every request to GET `/api/v1/users/:userId/auth-history` whose
parsed limit and offset are non-negative (50 and 0 by default), the returned
`logs` are the user's AuthenticationLog rows sorted descending by timestamp
and restricted to the requested page (drop offset, take limit), and the
response's `total` equals the length of that returned page — hence at most
`limit` — rather than the count of all the user's rows. -/
theorem authHistory_spec (logs : List AuthLogRec) (userId : String)
    (limitQ offsetQ : Option String)
    (hl : 0 ≤ limitOf limitQ) (ho : 0 ≤ offsetOf offsetQ) :
    (authHistory logs userId limitQ offsetQ).logs =
      ((List.insertionSort authLogDesc (logs.filter (fun l => l.userId == userId))).drop
          (offsetOf offsetQ).toNat).take (limitOf limitQ).toNat ∧
    (authHistory logs userId limitQ offsetQ).total =
      (authHistory logs userId limitQ offsetQ).logs.length ∧
    (authHistory logs userId limitQ offsetQ).total ≤ (limitOf limitQ).toNat ∧
    List.Sorted authLogDesc (authHistory logs userId limitQ offsetQ).logs ∧
    ∀ x ∈ (authHistory logs userId limitQ offsetQ).logs,
      x.userId = userId ∧ x ∈ logs := by
  have hpage : authLogPage logs userId limitQ offsetQ =
      ((List.insertionSort authLogDesc (logs.filter (fun l => l.userId == userId))).drop
          (offsetOf offsetQ).toNat).take (limitOf limitQ).toNat := by
    simp [authLogPage, prismaTake, prismaSkip, hl]
  have hsub : List.Sublist
      (((List.insertionSort authLogDesc
          (logs.filter (fun l => l.userId == userId))).drop
            (offsetOf offsetQ).toNat).take (limitOf limitQ).toNat)
      (List.insertionSort authLogDesc (logs.filter (fun l => l.userId == userId))) :=
    (List.take_sublist _ _).trans (List.drop_sublist _ _)
  refine ⟨hpage, rfl, ?_, ?_, ?_⟩
  · show (authLogPage logs userId limitQ offsetQ).length ≤ _
    rw [hpage]
    exact List.length_take_le _ _
  · show List.Sorted authLogDesc (authLogPage logs userId limitQ offsetQ)
    rw [hpage]
    exact List.Pairwise.sublist hsub
      (List.sorted_insertionSort authLogDesc (logs.filter (fun l => l.userId == userId)))
  · intro x hx
    have hx2 : x ∈ authLogPage logs userId limitQ offsetQ := hx
    rw [hpage] at hx2
    have hxs := hsub.mem hx2
    have hxf := (List.perm_insertionSort authLogDesc
      (logs.filter (fun l => l.userId == userId))).mem_iff.mp hxs
    have hmf := List.mem_filter.mp hxf
    exact ⟨by simpa using hmf.2, hmf.1⟩

theorem authHistory_spec_witness :
    (authHistory [{ id := "a1", userId := "u1", authenticatedAt := 4 }] "u1"
        (some "2") none).logs =
      ((List.insertionSort authLogDesc
          (([{ id := "a1", userId := "u1", authenticatedAt := 4 }] : List AuthLogRec).filter
            (fun l => l.userId == "u1"))).drop
          (offsetOf none).toNat).take (limitOf (some "2")).toNat ∧
    (authHistory [{ id := "a1", userId := "u1", authenticatedAt := 4 }] "u1"
        (some "2") none).total =
      (authHistory [{ id := "a1", userId := "u1", authenticatedAt := 4 }] "u1"
        (some "2") none).logs.length ∧
    (authHistory [{ id := "a1", userId := "u1", authenticatedAt := 4 }] "u1"
        (some "2") none).total ≤ (limitOf (some "2")).toNat ∧
    List.Sorted authLogDesc
      (authHistory [{ id := "a1", userId := "u1", authenticatedAt := 4 }] "u1"
        (some "2") none).logs ∧
    ∀ x ∈ (authHistory [{ id := "a1", userId := "u1", authenticatedAt := 4 }] "u1"
        (some "2") none).logs,
      x.userId = "u1" ∧ x ∈ [{ id := "a1", userId := "u1", authenticatedAt := 4 }] :=
  authHistory_spec [{ id := "a1", userId := "u1", authenticatedAt := 4 }] "u1"
    (some "2") none (by decide) (by decide)

/-- Claim C10: on both paginated audit-log endpoints, a `limit` query parameter
that is absent, non-numeric (`parseInt` gives NaN), or parsing to 0 falls
back to 50, and such an `offset` falls back to 0; in particular a request
with `limit=0` is served exactly as one with no limit parameter (a page of
up to 50 rows), on `/auth-logs` and `/auth-history` alike. -/
theorem paginationDefaults :
    limitOf none = 50 ∧ offsetOf none = 0 ∧
    limitOf (some "0") = 50 ∧ offsetOf (some "0") = 0 ∧
    (∀ s, jsParseInt s = none → limitOf (some s) = 50 ∧ offsetOf (some s) = 0) ∧
    (∀ logs userId offsetQ,
       authLogsHandler logs userId (some "0") offsetQ =
         authLogsHandler logs userId none offsetQ ∧
       authHistory logs userId (some "0") offsetQ =
         authHistory logs userId none offsetQ) := by
  have h50 : limitOf (some "0") = limitOf none := by decide
  refine ⟨rfl, rfl, by decide, by decide, ?_, ?_⟩
  · intro s hs
    constructor
    · simp [limitOf, queryInt, hs, jsIntOr]
    · simp [offsetOf, queryInt, hs, jsIntOr]
  · intro logs userId offsetQ
    constructor
    · simp [authLogsHandler, authLogPage, h50]
    · simp [authHistory, authLogPage, h50]

theorem paginationDefaults_witness :
    limitOf (some "abc") = 50 ∧ offsetOf (some "abc") = 0 :=
  paginationDefaults.2.2.2.2.1 "abc" (by decide)
